import Mathlib

/-!
# Verification of the RevolvingSimulator amortization core

Shallow embedding of the two pure functions in `src/App.tsx`:

* `calculateProjectedInterest` — projected remaining interest for a balance
  under a fixed monthly repayment with no further charges (600-iteration cap);
* `calculateSimulation` — the month-by-month revolving-balance simulation,
  with its termination heuristics and infinite-debt classification.

JavaScript numbers are modelled as exact rationals (`ℚ`); `Math.floor`
is `Int.floor`.  The `while` loop of `calculateSimulation` is embedded as a
step function `simStep` (one loop iteration: interest/payment computation,
runaway guard, balance update, record append, termination checks) driven by
a fuelled loop `simLoop`; the fuel models the `month < MAX_MONTHS` bound of
the loop condition (fuel = `MAX_MONTHS - month` throughout a run).
-/

/-- Input parameters of a simulation run (src `types.ts`, `SimulationParams`). -/
structure SimulationParams where
  initialBalance : ℚ
  monthlyNewCharge : ℚ
  monthlyRepayment : ℚ
  annualInterestRate : ℚ
deriving DecidableEq

/-- One row of the trajectory (src `types.ts`, `MonthData`). -/
structure MonthData where
  month : ℕ
  balance : ℚ
  principalPaid : ℚ
  interestPaid : ℚ
  totalPaid : ℚ
  cumulativeInterest : ℚ
  cumulativePrincipal : ℚ
  remainingInterest : ℚ
deriving DecidableEq

/-- Result of a simulation run (src `types.ts`, `SimulationResult`). -/
structure SimulationResult where
  data : List MonthData
  totalInterest : ℚ
  totalPaid : ℚ
  months : ℕ
  isInfinite : Bool
deriving DecidableEq

/-- Cap of the projected-interest loop (src `App.tsx` line 46, `MAX_PROJ_MONTHS`). -/
def MAX_PROJ_MONTHS : ℕ := 600

/-- Cap of the simulation loop (src `App.tsx` line 80, `MAX_MONTHS`). -/
def MAX_MONTHS : ℕ := 600

/-- Body of the `for` loop of `calculateProjectedInterest`
(src `App.tsx` lines 48-65), fuelled by the remaining iteration count.
State: `currentBal` and accumulated `totalInt`. -/
def projLoop (monthlyRepayment monthlyRate : ℚ) : ℕ → ℚ → ℚ → ℚ
  | 0, _, totalInt => totalInt
  | fuel + 1, currentBal, totalInt =>
    let interest : ℚ := (⌊currentBal * monthlyRate⌋ : ℤ)
    let payment : ℚ :=
      if currentBal + interest ≤ monthlyRepayment then currentBal + interest
      else monthlyRepayment
    let principal := payment - interest
    let newBal := currentBal - principal
    let newTot := totalInt + interest
    if newBal ≤ 0 then newTot else projLoop monthlyRepayment monthlyRate fuel newBal newTot

/-- Total interest required to clear `balance` with fixed `monthlyRepayment`
and no further charges (src `App.tsx` lines 36-68, `calculateProjectedInterest`). -/
def calculateProjectedInterest (balance monthlyRepayment annualInterestRate : ℚ) : ℚ :=
  if balance ≤ 0 then 0
  else projLoop monthlyRepayment (annualInterestRate / 100 / 12) MAX_PROJ_MONTHS balance 0

/-- Mutable state of the `while` loop of `calculateSimulation`
(src `App.tsx` lines 73-96). -/
structure SimState where
  balance : ℚ
  totalInterest : ℚ
  totalPaid : ℚ
  cumulativePrincipal : ℚ
  data : List MonthData
  month : ℕ
  isInfinite : Bool
deriving DecidableEq

/-- One iteration of the `while` loop of `calculateSimulation`
(src `App.tsx` lines 98-177).  Returns the state after the iteration and
`true` iff the loop continues (`false` models the `break` statements). -/
def simStep (p : SimulationParams) (monthlyRate : ℚ) (s : SimState) : SimState × Bool :=
  let month := s.month + 1
  let interest : ℚ := (⌊s.balance * monthlyRate⌋ : ℤ)
  let payment : ℚ :=
    if s.balance + interest ≤ p.monthlyRepayment then s.balance + interest
    else p.monthlyRepayment
  let principal := payment - interest
  -- runaway-balance guard (lines 114-118): break before applying the update
  if s.balance > p.initialBalance * 5 ∧ s.balance > 1000000 then
    ({ s with month := month, isInfinite := true }, false)
  else
    let prevBalance := s.balance
    let newBalance0 := s.balance - principal + p.monthlyNewCharge
    -- safety floor (line 127)
    let newBalance := if newBalance0 < 0 then 0 else newBalance0
    let totalInterest := s.totalInterest + interest
    let totalPaid := s.totalPaid + payment
    let cumulativePrincipal := s.cumulativePrincipal + principal
    let projectedInterest :=
      calculateProjectedInterest newBalance p.monthlyRepayment p.annualInterestRate
    let s' : SimState :=
      { balance := newBalance
        totalInterest := totalInterest
        totalPaid := totalPaid
        cumulativePrincipal := cumulativePrincipal
        data := s.data ++ [{ month := month
                             balance := newBalance
                             principalPaid := principal
                             interestPaid := interest
                             totalPaid := payment
                             cumulativeInterest := totalInterest
                             cumulativePrincipal := cumulativePrincipal
                             remainingInterest := projectedInterest }]
        month := month
        isInfinite := s.isInfinite }
    -- termination conditions (lines 148-176)
    if newBalance ≤ 0 then (s', false)
    else if newBalance < p.monthlyRepayment then (s', false)
    else if p.monthlyNewCharge > 0 ∧ |newBalance - prevBalance| ≤ 10 then
      if newBalance ≤ p.monthlyNewCharge * 1.5 then (s', false)
      else if newBalance > p.monthlyRepayment then ({ s' with isInfinite := true }, false)
      else (s', true)
    else (s', true)

/-- The `while balance > 0 && month < MAX_MONTHS` loop (src `App.tsx` line 98),
fuelled: the fuel is `MAX_MONTHS - month`, so running out of fuel is exactly
the `month < MAX_MONTHS` condition failing. -/
def simLoop (p : SimulationParams) (monthlyRate : ℚ) : ℕ → SimState → SimState
  | 0, s => s
  | fuel + 1, s =>
    if s.balance > 0 then
      match simStep p monthlyRate s with
      | (s', true) => simLoop p monthlyRate fuel s'
      | (s', false) => s'
    else s

/-- The simulation (src `App.tsx` lines 70-191, `calculateSimulation`). -/
def calculateSimulation (params : SimulationParams) : SimulationResult :=
  let monthlyRate := params.annualInterestRate / 100 / 12
  let s0 : SimState :=
    { balance := params.initialBalance
      totalInterest := 0
      totalPaid := 0
      cumulativePrincipal := 0
      data := [{ month := 0
                 balance := params.initialBalance
                 principalPaid := 0
                 interestPaid := 0
                 totalPaid := 0
                 cumulativeInterest := 0
                 cumulativePrincipal := 0
                 remainingInterest :=
                   calculateProjectedInterest params.initialBalance
                     params.monthlyRepayment params.annualInterestRate }]
      month := 0
      isInfinite := false }
  let s := simLoop params monthlyRate MAX_MONTHS s0
  -- "If we hit MAX_MONTHS and didn't break early, it's infinite." (lines 179-182)
  let isInfinite := if s.month ≥ MAX_MONTHS then true else s.isInfinite
  { data := s.data
    totalInterest := s.totalInterest
    totalPaid := s.totalPaid
    months := s.month
    isInfinite := isInfinite }

/-- The reference recurrence of the spec (§4.1) for the projected-interest
estimator, written from the spec's words: each iteration computes
`interest = floor(balance × annualInterestRate / 100 / 12)`, takes
`payment = monthlyRepayment` capped so it never exceeds `balance + interest`,
reduces the balance by `payment − interest`, accumulates the interest, and
stops when the balance reaches zero; the iteration count is capped, and on
cap exhaustion the interest accumulated so far is returned. -/
def specProjLoop (monthlyRepayment annualInterestRate : ℚ) : ℕ → ℚ → ℚ → ℚ
  | 0, _, acc => acc
  | fuel + 1, bal, acc =>
    let interest : ℚ := (⌊bal * annualInterestRate / 100 / 12⌋ : ℤ)
    let payment : ℚ := min monthlyRepayment (bal + interest)
    let bal' := bal - (payment - interest)
    let acc' := acc + interest
    if bal' = 0 then acc' else specProjLoop monthlyRepayment annualInterestRate fuel bal' acc'

/-- The spec's reference estimator (§4.1, claim C5): run the reference
recurrence `specProjLoop` from the given balance with a hard cap of 600
iterations and a zero interest accumulator. -/
def estimateSpecRecurrence (balance monthlyRepayment annualInterestRate : ℚ) : ℚ :=
  specProjLoop monthlyRepayment annualInterestRate 600 balance 0

/-! ## Lemmas about the projected-interest estimator -/

/-- The source's conditional cap of the payment equals the spec's `min` form. -/
theorem payment_eq_min (rep x : ℚ) : (if x ≤ rep then x else rep) = min rep x :=
  (min_def x rep).symm.trans (min_comm x rep)

/-- `projLoop` (embedded source loop) agrees with `specProjLoop`
(the spec's reference recurrence) at every fuel, balance and accumulator. -/
theorem projLoop_eq_specProjLoop (rep rate : ℚ) :
    ∀ fuel bal acc, projLoop rep (rate / 100 / 12) fuel bal acc =
      specProjLoop rep rate fuel bal acc := by
  intro fuel
  induction fuel with
  | zero => intro bal acc; rfl
  | succ fuel ih =>
    intro bal acc
    simp only [projLoop, specProjLoop]
    have hI : ((⌊bal * (rate / 100 / 12)⌋ : ℤ) : ℚ) = ((⌊bal * rate / 100 / 12⌋ : ℤ) : ℚ) := by
      congr 2
      ring
    rw [hI]
    set I : ℚ := ((⌊bal * rate / 100 / 12⌋ : ℤ) : ℚ) with hIdef
    rw [payment_eq_min rep (bal + I)]
    set NB : ℚ := bal - (min rep (bal + I) - I) with hNB
    have hNB0 : 0 ≤ NB := by
      have : min rep (bal + I) ≤ bal + I := min_le_right _ _
      rw [hNB]
      linarith
    have hiff : NB ≤ 0 ↔ NB = 0 := ⟨fun h => le_antisymm h hNB0, fun h => le_of_eq h⟩
    exact if_congr hiff rfl (ih NB (acc + I))

/-- C5: for every positive balance, `calculateProjectedInterest` equals the
spec's reference recurrence (truncated interest, payment capped at
`balance + interest`, stop at zero balance or after the 600-iteration cap,
returning the interest accumulated so far on cap exhaustion). -/
theorem calculateProjectedInterest_eq_specRecurrence
    (balance monthlyRepayment annualInterestRate : ℚ) (h : 0 < balance) :
    calculateProjectedInterest balance monthlyRepayment annualInterestRate =
      estimateSpecRecurrence balance monthlyRepayment annualInterestRate := by
  rw [calculateProjectedInterest, if_neg (not_le.mpr h), estimateSpecRecurrence]
  exact projLoop_eq_specProjLoop monthlyRepayment annualInterestRate MAX_PROJ_MONTHS balance 0

/-- Witness for C5 at Scenario A's parameters. -/
theorem calculateProjectedInterest_eq_specRecurrence_witness :
    (0 : ℚ) < 300000 ∧
      calculateProjectedInterest 300000 5000 18 = estimateSpecRecurrence 300000 5000 18 :=
  ⟨by norm_num, calculateProjectedInterest_eq_specRecurrence 300000 5000 18 (by norm_num)⟩

/-- C9: for every balance ≤ 0, `calculateProjectedInterest` returns 0
immediately, whatever the repayment and rate. -/
theorem calculateProjectedInterest_nonpos
    (balance monthlyRepayment annualInterestRate : ℚ) (h : balance ≤ 0) :
    calculateProjectedInterest balance monthlyRepayment annualInterestRate = 0 := by
  rw [calculateProjectedInterest, if_pos h]

/-- Witness for C9 at a negative balance. -/
theorem calculateProjectedInterest_nonpos_witness :
    (-5 : ℚ) ≤ 0 ∧ calculateProjectedInterest (-5) 3 18 = 0 :=
  ⟨by norm_num, calculateProjectedInterest_nonpos (-5) 3 18 (by norm_num)⟩

/-! ## Lemmas about one iteration of the simulation loop -/

/-- One loop unfolding: with non-positive balance the loop does not run. -/
theorem simLoop_succ_nonpos (p : SimulationParams) (r : ℚ) (fuel : ℕ) (s : SimState)
    (h : ¬ 0 < s.balance) : simLoop p r (fuel + 1) s = s := by
  simp only [simLoop, if_neg h]

/-- One loop unfolding: a continuing iteration. -/
theorem simLoop_succ_cont (p : SimulationParams) (r : ℚ) (fuel : ℕ) (s s' : SimState)
    (h : 0 < s.balance) (hstep : simStep p r s = (s', true)) :
    simLoop p r (fuel + 1) s = simLoop p r fuel s' := by
  simp only [simLoop, if_pos h, hstep]

/-- One loop unfolding: an iteration that breaks. -/
theorem simLoop_succ_stop (p : SimulationParams) (r : ℚ) (fuel : ℕ) (s s' : SimState)
    (h : 0 < s.balance) (hstep : simStep p r s = (s', false)) :
    simLoop p r (fuel + 1) s = s' := by
  simp only [simLoop, if_pos h, hstep]

/-- Every iteration increments the month counter by one. -/
theorem simStep_month (p : SimulationParams) (r : ℚ) (s : SimState) :
    ((simStep p r s).1).month = s.month + 1 := by
  simp only [simStep]
  split_ifs <;> rfl

/-- An iteration never shortens the trajectory. -/
theorem simStep_data_length_le (p : SimulationParams) (r : ℚ) (s : SimState) :
    s.data.length ≤ ((simStep p r s).1).data.length := by
  by_cases hg : s.balance > p.initialBalance * 5 ∧ s.balance > 1000000
  · simp only [simStep, if_pos hg]
    exact le_rfl
  · simp only [simStep, if_neg hg]
    split_ifs <;> simp

/-- An iteration only appends to the trajectory: existing rows are unchanged. -/
theorem simStep_data_getElem? (p : SimulationParams) (r : ℚ) (s : SimState) (i : ℕ)
    (hi : i < s.data.length) :
    ((simStep p r s).1).data[i]? = s.data[i]? := by
  by_cases hg : s.balance > p.initialBalance * 5 ∧ s.balance > 1000000
  · simp only [simStep, if_pos hg]
  · simp only [simStep, if_neg hg]
    split_ifs <;> exact List.getElem?_append_left hi

/-- An iteration preserves the invariant that the last trajectory row carries
the running balance. -/
theorem simStep_lastBalance (p : SimulationParams) (r : ℚ) (s : SimState)
    (h : s.data.getLast?.map MonthData.balance = some s.balance) :
    ((simStep p r s).1).data.getLast?.map MonthData.balance =
      some ((simStep p r s).1).balance := by
  by_cases hg : s.balance > p.initialBalance * 5 ∧ s.balance > 1000000
  · simp only [simStep, if_pos hg]
    exact h
  · simp only [simStep, if_neg hg]
    split_ifs <;> simp [List.getLast?_append]

set_option maxHeartbeats 2000000 in
/-- When an iteration breaks out of the loop, either it set the infinite-debt
flag (runaway guard or stable-state trap), or the new balance is 0, or it is
strictly below the monthly repayment, or it is within the stable low-balance
success bound `monthlyNewCharge * 1.5`. -/
theorem simStep_stop_class (p : SimulationParams) (r : ℚ) (s : SimState)
    (hstop : (simStep p r s).2 = false) :
    ((simStep p r s).1).isInfinite = true ∨
    ((simStep p r s).1).balance = 0 ∨
    ((simStep p r s).1).balance < p.monthlyRepayment ∨
    ((simStep p r s).1).balance ≤ p.monthlyNewCharge * 1.5 := by
  by_cases hg : s.balance > p.initialBalance * 5 ∧ s.balance > 1000000
  · left
    simp only [simStep, if_pos hg]
  · simp only [simStep, if_neg hg] at hstop ⊢
    split_ifs at hstop ⊢
    all_goals simp only at hstop ⊢
    all_goals first
      | tauto
      | (refine Or.inr (Or.inl ?_); linarith)

/-- An iteration keeps the running balance non-negative (the safety floor). -/
theorem simStep_balance_nonneg (p : SimulationParams) (r : ℚ) (s : SimState)
    (h : 0 ≤ s.balance) : 0 ≤ ((simStep p r s).1).balance := by
  by_cases hg : s.balance > p.initialBalance * 5 ∧ s.balance > 1000000
  · simp only [simStep, if_pos hg]
    exact h
  · simp only [simStep, if_neg hg]
    split_ifs
    all_goals dsimp only
    all_goals first | exact le_rfl | linarith

/-! ## Lemmas about the whole simulation loop -/

/-- The loop preserves the invariant that the last trajectory row carries the
running balance. -/
theorem simLoop_lastBalance (p : SimulationParams) (r : ℚ) :
    ∀ (fuel : ℕ) (s : SimState),
      s.data.getLast?.map MonthData.balance = some s.balance →
      (simLoop p r fuel s).data.getLast?.map MonthData.balance =
        some (simLoop p r fuel s).balance := by
  intro fuel
  induction fuel with
  | zero => intro s h; exact h
  | succ fuel ih =>
    intro s h
    by_cases h0 : 0 < s.balance
    · rcases hE : simStep p r s with ⟨s', c⟩
      have hlast' := simStep_lastBalance p r s h
      rw [hE] at hlast'
      simp only at hlast'
      cases c with
      | false => rw [simLoop_succ_stop p r fuel s s' h0 hE]; exact hlast'
      | true => rw [simLoop_succ_cont p r fuel s s' h0 hE]; exact ih s' hlast'
    · rw [simLoop_succ_nonpos p r fuel s h0]; exact h

/-- If the loop ends with the infinite-debt flag unset and without exhausting
its fuel (i.e. before the `month < MAX_MONTHS` condition could fail), then its
final balance is 0, strictly below the monthly repayment, or within the stable
low-balance success bound. -/
theorem simLoop_exit (p : SimulationParams) (r : ℚ) :
    ∀ (fuel : ℕ) (s : SimState), 0 ≤ s.balance →
      (simLoop p r fuel s).isInfinite = false →
      (simLoop p r fuel s).month < s.month + fuel →
      ((simLoop p r fuel s).balance = 0 ∨
       (simLoop p r fuel s).balance < p.monthlyRepayment ∨
       (simLoop p r fuel s).balance ≤ p.monthlyNewCharge * 1.5) := by
  intro fuel
  induction fuel with
  | zero =>
    intro s hb hinf hm
    simp only [simLoop] at hm
    omega
  | succ fuel ih =>
    intro s hb hinf hm
    by_cases h0 : 0 < s.balance
    · rcases hE : simStep p r s with ⟨s', c⟩
      cases c with
      | true =>
        rw [simLoop_succ_cont p r fuel s s' h0 hE] at hinf hm ⊢
        have hb' : 0 ≤ s'.balance := by
          have h1 := simStep_balance_nonneg p r s hb
          rw [hE] at h1
          exact h1
        have hmonth : s'.month = s.month + 1 := by
          have h2 := simStep_month p r s
          rw [hE] at h2
          exact h2
        exact ih s' hb' hinf (by omega)
      | false =>
        rw [simLoop_succ_stop p r fuel s s' h0 hE] at hinf ⊢
        have hclass := simStep_stop_class p r s (by rw [hE])
        rw [hE] at hclass
        simp only at hclass
        rcases hclass with hI | h
        · rw [hI] at hinf
          exact absurd hinf (by simp)
        · exact h
    · rw [simLoop_succ_nonpos p r fuel s h0] at hinf hm ⊢
      left
      exact le_antisymm (not_lt.mp h0) hb

/-- The loop only appends to the trajectory: existing rows are unchanged. -/
theorem simLoop_data_getElem? (p : SimulationParams) (r : ℚ) :
    ∀ (fuel : ℕ) (s : SimState) (i : ℕ), i < s.data.length →
      (simLoop p r fuel s).data[i]? = s.data[i]? := by
  intro fuel
  induction fuel with
  | zero => intro s i hi; rfl
  | succ fuel ih =>
    intro s i hi
    by_cases h0 : 0 < s.balance
    · rcases hE : simStep p r s with ⟨s', c⟩
      have hget := simStep_data_getElem? p r s i hi
      have hlen := simStep_data_length_le p r s
      rw [hE] at hget hlen
      simp only at hget hlen
      cases c with
      | false => rw [simLoop_succ_stop p r fuel s s' h0 hE]; exact hget
      | true =>
        rw [simLoop_succ_cont p r fuel s s' h0 hE]
        rw [ih s' i (lt_of_lt_of_le hi hlen)]
        exact hget
    · rw [simLoop_succ_nonpos p r fuel s h0]

/-- Exit classification for a full run of the loop started at month 0. -/
theorem simRun_exit (p : SimulationParams) (r : ℚ) (s0 : SimState) (b : ℚ)
    (hm0 : s0.month = 0) (hb : 0 ≤ s0.balance)
    (hl0 : s0.data.getLast?.map MonthData.balance = some s0.balance)
    (hinf : (if (simLoop p r MAX_MONTHS s0).month ≥ MAX_MONTHS then true
             else (simLoop p r MAX_MONTHS s0).isInfinite) = false)
    (hlast : (simLoop p r MAX_MONTHS s0).data.getLast?.map MonthData.balance = some b) :
    b = 0 ∨ b < p.monthlyRepayment ∨ b ≤ p.monthlyNewCharge * 1.5 := by
  by_cases hm : (simLoop p r MAX_MONTHS s0).month ≥ MAX_MONTHS
  · rw [if_pos hm] at hinf
    exact absurd hinf (by simp)
  · rw [if_neg hm] at hinf
    have hexit := simLoop_exit p r MAX_MONTHS s0 hb hinf (by omega)
    have hlb := simLoop_lastBalance p r MAX_MONTHS s0 hl0
    have hbb : b = (simLoop p r MAX_MONTHS s0).balance :=
      Option.some.inj (hlast.symm.trans hlb)
    rw [hbb]
    exact hexit

/-- C1 (amended): for non-negative parameters, if `calculateSimulation`
classifies the run as not infinite, the last trajectory row's balance is 0, or
at most the monthly repayment, or at most `monthlyNewCharge * 1.5` (the
stable-state success exit, which the original claim omits). -/
theorem calculateSimulation_terminal_balance (p : SimulationParams)
    (hb : 0 ≤ p.initialBalance) (hinf : (calculateSimulation p).isInfinite = false)
    (b : ℚ)
    (hlast : (calculateSimulation p).data.getLast?.map MonthData.balance = some b) :
    b = 0 ∨ b ≤ p.monthlyRepayment ∨ b ≤ p.monthlyNewCharge * 1.5 := by
  simp only [calculateSimulation] at hinf hlast
  refine (simRun_exit p _ _ b rfl ?_ ?_ hinf hlast).imp id (Or.imp le_of_lt id)
  · exact hb
  · simp

/-- Witness for the amended C1 theorem at concrete parameters. -/
theorem calculateSimulation_terminal_balance_witness :
    (0 : ℚ) ≤ 100 ∧ (calculateSimulation ⟨100, 0, 100, 0⟩).isInfinite = false ∧
    (calculateSimulation ⟨100, 0, 100, 0⟩).data.getLast?.map MonthData.balance = some 0 ∧
    ((0 : ℚ) = 0 ∨ (0 : ℚ) ≤ 100 ∨ (0 : ℚ) ≤ 0 * 1.5) := by
  have hinf : (calculateSimulation ⟨100, 0, 100, 0⟩).isInfinite = false :=
    of_decide_eq_true (by with_unfolding_all rfl)
  have hlast : (calculateSimulation ⟨100, 0, 100, 0⟩).data.getLast?.map MonthData.balance =
      some 0 := of_decide_eq_true (by with_unfolding_all rfl)
  exact ⟨by norm_num, hinf, hlast,
    calculateSimulation_terminal_balance _ (by norm_num) hinf 0 hlast⟩

set_option maxRecDepth 8000 in
/-- Counterexample to C1 as stated: with initialBalance 1400, monthlyNewCharge
1000, monthlyRepayment 1000 and zero interest, the run ends via the
stable-state success break with `isInfinite = false`, yet the last trajectory
row's balance is 1400, which is neither 0 nor ≤ the monthly repayment. -/
theorem calculateSimulation_terminal_balance_counterexample :
    (calculateSimulation ⟨1400, 1000, 1000, 0⟩).isInfinite = false ∧
    (calculateSimulation ⟨1400, 1000, 1000, 0⟩).data.getLast?.map MonthData.balance =
      some 1400 ∧
    ¬ ((1400 : ℚ) ≤ 1000) ∧ (1400 : ℚ) ≠ 0 :=
  of_decide_eq_true (by with_unfolding_all rfl)

/-- C3 (amended): if the balance at the end of a month is strictly positive
and strictly below the monthly repayment, the loop terminates that same month,
appending exactly that month's row.  (Exact equality with the repayment does
not fire this rule: the code's check is a strict `<`.) -/
theorem simStep_below_repayment_stops (p : SimulationParams) (r : ℚ) (fuel : ℕ)
    (s : SimState) (h0 : 0 < s.balance)
    (hg : ¬ (s.balance > p.initialBalance * 5 ∧ s.balance > 1000000))
    (interest payment principal newBalance : ℚ)
    (hi : interest = ((⌊s.balance * r⌋ : ℤ) : ℚ))
    (hp : payment = if s.balance + interest ≤ p.monthlyRepayment then s.balance + interest
                    else p.monthlyRepayment)
    (hpr : principal = payment - interest)
    (hnb : newBalance = if s.balance - principal + p.monthlyNewCharge < 0 then 0
                        else s.balance - principal + p.monthlyNewCharge)
    (hpos : 0 < newBalance) (hlt : newBalance < p.monthlyRepayment) :
    simLoop p r (fuel + 1) s =
      { balance := newBalance
        totalInterest := s.totalInterest + interest
        totalPaid := s.totalPaid + payment
        cumulativePrincipal := s.cumulativePrincipal + principal
        data := s.data ++ [{ month := s.month + 1
                             balance := newBalance
                             principalPaid := principal
                             interestPaid := interest
                             totalPaid := payment
                             cumulativeInterest := s.totalInterest + interest
                             cumulativePrincipal := s.cumulativePrincipal + principal
                             remainingInterest := calculateProjectedInterest newBalance
                               p.monthlyRepayment p.annualInterestRate }]
        month := s.month + 1
        isInfinite := s.isInfinite } := by
  subst hi hp hpr hnb
  apply simLoop_succ_stop p r fuel s _ h0
  simp only [simStep, if_neg hg]
  rw [if_neg (not_le.mpr hpos), if_pos hlt]

/-- Witness for the amended C3 theorem: balance 100, repayment 80, no interest
and no new charges; the month-1 balance 20 is strictly below the repayment and
the loop stops that month. -/
theorem simStep_below_repayment_stops_witness :
    (0 : ℚ) < 100 ∧ (0 : ℚ) < 20 ∧ (20 : ℚ) < 80 ∧
    simLoop ⟨100, 0, 80, 0⟩ 0 4 ⟨100, 0, 0, 0, [], 0, false⟩ =
      ⟨20, 0, 80, 80, [⟨1, 20, 80, 0, 80, 0, 80, calculateProjectedInterest 20 80 0⟩],
        1, false⟩ := by
  refine ⟨by norm_num, by norm_num, by norm_num, ?_⟩
  have h := simStep_below_repayment_stops ⟨100, 0, 80, 0⟩ 0 3 ⟨100, 0, 0, 0, [], 0, false⟩
    (by norm_num) (by norm_num) 0 80 80 20 (by norm_num) (by norm_num) (by norm_num)
    (by norm_num) (by norm_num) (by norm_num)
  simpa using h

set_option maxRecDepth 8000 in
/-- Counterexample to C3 as stated: with initialBalance 10000, repayment 5000
and zero interest, the month-1 balance is exactly 5000 = monthlyRepayment, no
earlier termination condition fires, yet the simulation does not stop at month
1: it runs a second month (months = 2, trajectory has 3 rows). -/
theorem simStep_below_repayment_stops_counterexample :
    ((calculateSimulation ⟨10000, 0, 5000, 0⟩).data[1]?).map MonthData.balance = some 5000 ∧
    (calculateSimulation ⟨10000, 0, 5000, 0⟩).months = 2 ∧
    (calculateSimulation ⟨10000, 0, 5000, 0⟩).data.length = 3 := by
  have h1 : simStep ⟨10000, 0, 5000, 0⟩ ((0 : ℚ) / 100 / 12)
      ⟨10000, 0, 0, 0,
        [⟨0, 10000, 0, 0, 0, 0, 0, calculateProjectedInterest 10000 5000 0⟩], 0, false⟩ =
      (⟨5000, 0, 5000, 5000,
        [⟨0, 10000, 0, 0, 0, 0, 0, calculateProjectedInterest 10000 5000 0⟩,
         ⟨1, 5000, 5000, 0, 5000, 0, 5000, calculateProjectedInterest 5000 5000 0⟩],
        1, false⟩, true) := by
    with_unfolding_all rfl
  have h2 : simStep ⟨10000, 0, 5000, 0⟩ ((0 : ℚ) / 100 / 12)
      ⟨5000, 0, 5000, 5000,
        [⟨0, 10000, 0, 0, 0, 0, 0, calculateProjectedInterest 10000 5000 0⟩,
         ⟨1, 5000, 5000, 0, 5000, 0, 5000, calculateProjectedInterest 5000 5000 0⟩],
        1, false⟩ =
      (⟨0, 0, 10000, 10000,
        [⟨0, 10000, 0, 0, 0, 0, 0, calculateProjectedInterest 10000 5000 0⟩,
         ⟨1, 5000, 5000, 0, 5000, 0, 5000, calculateProjectedInterest 5000 5000 0⟩,
         ⟨2, 0, 5000, 0, 5000, 0, 10000, calculateProjectedInterest 0 5000 0⟩],
        2, false⟩, false) := by
    with_unfolding_all rfl
  have hloop : simLoop ⟨10000, 0, 5000, 0⟩ ((0 : ℚ) / 100 / 12) 600
      ⟨10000, 0, 0, 0,
        [⟨0, 10000, 0, 0, 0, 0, 0, calculateProjectedInterest 10000 5000 0⟩], 0, false⟩ =
      ⟨0, 0, 10000, 10000,
        [⟨0, 10000, 0, 0, 0, 0, 0, calculateProjectedInterest 10000 5000 0⟩,
         ⟨1, 5000, 5000, 0, 5000, 0, 5000, calculateProjectedInterest 5000 5000 0⟩,
         ⟨2, 0, 5000, 0, 5000, 0, 10000, calculateProjectedInterest 0 5000 0⟩],
        2, false⟩ := by
    have e1 := simLoop_succ_cont ⟨10000, 0, 5000, 0⟩ ((0 : ℚ) / 100 / 12) 599 _ _
      (by norm_num) h1
    have e2 := simLoop_succ_stop ⟨10000, 0, 5000, 0⟩ ((0 : ℚ) / 100 / 12) 598 _ _
      (by norm_num) h2
    exact e1.trans e2
  have hcs : calculateSimulation ⟨10000, 0, 5000, 0⟩ =
      { data := (simLoop ⟨10000, 0, 5000, 0⟩ ((0 : ℚ) / 100 / 12) 600
          ⟨10000, 0, 0, 0,
            [⟨0, 10000, 0, 0, 0, 0, 0, calculateProjectedInterest 10000 5000 0⟩],
            0, false⟩).data
        totalInterest := (simLoop ⟨10000, 0, 5000, 0⟩ ((0 : ℚ) / 100 / 12) 600
          ⟨10000, 0, 0, 0,
            [⟨0, 10000, 0, 0, 0, 0, 0, calculateProjectedInterest 10000 5000 0⟩],
            0, false⟩).totalInterest
        totalPaid := (simLoop ⟨10000, 0, 5000, 0⟩ ((0 : ℚ) / 100 / 12) 600
          ⟨10000, 0, 0, 0,
            [⟨0, 10000, 0, 0, 0, 0, 0, calculateProjectedInterest 10000 5000 0⟩],
            0, false⟩).totalPaid
        months := (simLoop ⟨10000, 0, 5000, 0⟩ ((0 : ℚ) / 100 / 12) 600
          ⟨10000, 0, 0, 0,
            [⟨0, 10000, 0, 0, 0, 0, 0, calculateProjectedInterest 10000 5000 0⟩],
            0, false⟩).month
        isInfinite := if (simLoop ⟨10000, 0, 5000, 0⟩ ((0 : ℚ) / 100 / 12) 600
          ⟨10000, 0, 0, 0,
            [⟨0, 10000, 0, 0, 0, 0, 0, calculateProjectedInterest 10000 5000 0⟩],
            0, false⟩).month ≥ MAX_MONTHS then true
          else (simLoop ⟨10000, 0, 5000, 0⟩ ((0 : ℚ) / 100 / 12) 600
            ⟨10000, 0, 0, 0,
              [⟨0, 10000, 0, 0, 0, 0, 0, calculateProjectedInterest 10000 5000 0⟩],
              0, false⟩).isInfinite } := rfl
  rw [hcs, hloop]
  refine ⟨by simp, by simp, by simp⟩

/-- C7: whenever the loop reaches an iteration with the running balance above
both `initialBalance * 5` and 1,000,000, it stops immediately with the
infinite-debt flag set, before applying that month's update: no row is
appended and no total is accumulated, while the month counter (the returned
`months`) still counts the aborted iteration. -/
theorem simLoop_runaway_guard (p : SimulationParams) (r : ℚ) (fuel : ℕ) (s : SimState)
    (h0 : 0 < s.balance) (h1 : p.initialBalance * 5 < s.balance)
    (h2 : 1000000 < s.balance) :
    simLoop p r (fuel + 1) s = { s with month := s.month + 1, isInfinite := true } := by
  apply simLoop_succ_stop p r fuel s _ h0
  simp only [simStep]
  rw [if_pos ⟨h1, h2⟩]

/-- Witness for C7: a state whose balance 2,000,000 exceeds five times the
initial balance 100 and 1,000,000. -/
theorem simLoop_runaway_guard_witness :
    (0 : ℚ) < 2000000 ∧ (100 : ℚ) * 5 < 2000000 ∧ (1000000 : ℚ) < 2000000 ∧
    simLoop ⟨100, 0, 50, 0⟩ 0 1 ⟨2000000, 0, 0, 0, [], 3, false⟩ =
      ⟨2000000, 0, 0, 0, [], 4, true⟩ := by
  refine ⟨by norm_num, by norm_num, by norm_num, ?_⟩
  have h := simLoop_runaway_guard ⟨100, 0, 50, 0⟩ 0 0 ⟨2000000, 0, 0, 0, [], 3, false⟩
    (by norm_num) (by norm_num) (by norm_num)
  simpa using h

/-- Appending a row whose cumulative interest dominates the last row's keeps
the trajectory's cumulative interest non-decreasing. -/
theorem chain_cumInterest_concat (l : List MonthData) (rec : MonthData) (t : ℚ)
    (hlast : l.getLast?.map MonthData.cumulativeInterest = some t)
    (hchain : List.Chain' (fun a b => a.cumulativeInterest ≤ b.cumulativeInterest) l)
    (hle : t ≤ rec.cumulativeInterest) :
    List.Chain' (fun a b => a.cumulativeInterest ≤ b.cumulativeInterest) (l ++ [rec]) := by
  rw [List.chain'_append]
  refine ⟨hchain, List.chain'_singleton rec, ?_⟩
  intro x hx y hy
  simp only [List.head?_cons, Option.mem_def, Option.some.injEq] at hy
  subst hy
  rw [Option.mem_def] at hx
  rw [hx, Option.map_some'] at hlast
  have hxt : x.cumulativeInterest = t := Option.some.inj hlast
  rw [hxt]
  exact hle

set_option maxHeartbeats 2000000 in
/-- One iteration with a non-negative monthly rate keeps the cumulative
interest of the trajectory non-decreasing, with the last row carrying the
running total. -/
theorem simStep_cumInterest (p : SimulationParams) (r : ℚ) (s : SimState)
    (hr : 0 ≤ r) (h0 : 0 < s.balance)
    (hlast : s.data.getLast?.map MonthData.cumulativeInterest = some s.totalInterest)
    (hchain : List.Chain' (fun a b => a.cumulativeInterest ≤ b.cumulativeInterest) s.data) :
    ((simStep p r s).1).data.getLast?.map MonthData.cumulativeInterest =
      some ((simStep p r s).1).totalInterest ∧
    List.Chain' (fun a b => a.cumulativeInterest ≤ b.cumulativeInterest)
      ((simStep p r s).1).data := by
  have hint : (0 : ℚ) ≤ ((⌊s.balance * r⌋ : ℤ) : ℚ) := by
    have h1 : (0 : ℚ) ≤ s.balance * r := mul_nonneg h0.le hr
    have h2 : (0 : ℤ) ≤ ⌊s.balance * r⌋ := Int.le_floor.mpr (by exact_mod_cast h1)
    exact_mod_cast h2
  by_cases hg : s.balance > p.initialBalance * 5 ∧ s.balance > 1000000
  · simp only [simStep, if_pos hg]
    exact ⟨hlast, hchain⟩
  · simp only [simStep, if_neg hg]
    split_ifs
    all_goals dsimp only
    all_goals refine ⟨by simp [List.getLast?_concat], ?_⟩
    all_goals refine chain_cumInterest_concat _ _ _ hlast hchain ?_
    all_goals dsimp only
    all_goals linarith

/-- The loop with a non-negative monthly rate keeps the cumulative interest of
the trajectory non-decreasing. -/
theorem simLoop_cumInterest (p : SimulationParams) (r : ℚ) (hr : 0 ≤ r) :
    ∀ (fuel : ℕ) (s : SimState),
      s.data.getLast?.map MonthData.cumulativeInterest = some s.totalInterest →
      List.Chain' (fun a b => a.cumulativeInterest ≤ b.cumulativeInterest) s.data →
      ((simLoop p r fuel s).data.getLast?.map MonthData.cumulativeInterest =
        some (simLoop p r fuel s).totalInterest ∧
       List.Chain' (fun a b => a.cumulativeInterest ≤ b.cumulativeInterest)
         (simLoop p r fuel s).data) := by
  intro fuel
  induction fuel with
  | zero => intro s h1 h2; exact ⟨h1, h2⟩
  | succ fuel ih =>
    intro s h1 h2
    by_cases h0 : 0 < s.balance
    · rcases hE : simStep p r s with ⟨s', c⟩
      have hstep := simStep_cumInterest p r s hr h0 h1 h2
      rw [hE] at hstep
      simp only at hstep
      cases c with
      | false => rw [simLoop_succ_stop p r fuel s s' h0 hE]; exact hstep
      | true => rw [simLoop_succ_cont p r fuel s s' h0 hE]; exact ih s' hstep.1 hstep.2
    · rw [simLoop_succ_nonpos p r fuel s h0]
      exact ⟨h1, h2⟩

/-- C2 (amended): with a non-negative annual rate, `cumulativeInterest` is
non-decreasing along the trajectory.  (`cumulativePrincipal` is *not*
non-decreasing in general: a month whose interest exceeds the repayment has a
negative `principalPaid`, see the counterexample.) -/
theorem calculateSimulation_cumInterest_mono (p : SimulationParams)
    (hr : 0 ≤ p.annualInterestRate) (i : ℕ) (a b : MonthData)
    (ha : (calculateSimulation p).data[i]? = some a)
    (hb : (calculateSimulation p).data[i + 1]? = some b) :
    a.cumulativeInterest ≤ b.cumulativeInterest := by
  have hr' : 0 ≤ p.annualInterestRate / 100 / 12 := by positivity
  have hchain := (simLoop_cumInterest p (p.annualInterestRate / 100 / 12) hr' MAX_MONTHS
    { balance := p.initialBalance
      totalInterest := 0
      totalPaid := 0
      cumulativePrincipal := 0
      data := [{ month := 0
                 balance := p.initialBalance
                 principalPaid := 0
                 interestPaid := 0
                 totalPaid := 0
                 cumulativeInterest := 0
                 cumulativePrincipal := 0
                 remainingInterest :=
                   calculateProjectedInterest p.initialBalance
                     p.monthlyRepayment p.annualInterestRate }]
      month := 0
      isInfinite := false } (by simp) (by simp)).2
  simp only [calculateSimulation] at ha hb
  rw [List.chain'_iff_get] at hchain
  have hia : i < _ := (List.getElem?_eq_some.mp ha).1
  have hib : i + 1 < _ := (List.getElem?_eq_some.mp hb).1
  have h := hchain i (by omega)
  rw [List.get_eq_getElem, List.get_eq_getElem] at h
  have hea : _ = a := (List.getElem?_eq_some.mp ha).2
  have heb : _ = b := (List.getElem?_eq_some.mp hb).2
  rw [← hea, ← heb]
  exact h

/-- Witness for the amended C2 theorem at concrete parameters. -/
theorem calculateSimulation_cumInterest_mono_witness :
    (0 : ℚ) ≤ (⟨100, 0, 100, 0⟩ : SimulationParams).annualInterestRate ∧
    (calculateSimulation ⟨100, 0, 100, 0⟩).data[0]? = some ⟨0, 100, 0, 0, 0, 0, 0, 0⟩ ∧
    (calculateSimulation ⟨100, 0, 100, 0⟩).data[1]? = some ⟨1, 0, 100, 0, 100, 0, 100, 0⟩ ∧
    (0 : ℚ) ≤ 0 := by
  have ha : (calculateSimulation ⟨100, 0, 100, 0⟩).data[0]? =
      some ⟨0, 100, 0, 0, 0, 0, 0, 0⟩ := of_decide_eq_true (by with_unfolding_all rfl)
  have hb : (calculateSimulation ⟨100, 0, 100, 0⟩).data[1]? =
      some ⟨1, 0, 100, 0, 100, 0, 100, 0⟩ := of_decide_eq_true (by with_unfolding_all rfl)
  exact ⟨by norm_num, ha, hb,
    calculateSimulation_cumInterest_mono _ (by norm_num) 0 _ _ ha hb⟩

set_option maxRecDepth 8000 in
/-- Counterexample to C2 as stated: with initialBalance 1000, monthlyNewCharge
1, monthlyRepayment 5 and annual rate 16.9 %, the month-1 interest (14)
exceeds the repayment, so `principalPaid` is −9 and `cumulativePrincipal`
drops from 0 to −9: it is not non-decreasing. -/
theorem calculateSimulation_cumPrincipal_counterexample :
    ((calculateSimulation ⟨1000, 1, 5, 169 / 10⟩).data[0]?).map
      MonthData.cumulativePrincipal = some 0 ∧
    ((calculateSimulation ⟨1000, 1, 5, 169 / 10⟩).data[1]?).map
      MonthData.cumulativePrincipal = some (-9) ∧
    ¬ ((0 : ℚ) ≤ -9) :=
  of_decide_eq_true (by with_unfolding_all rfl)

set_option maxHeartbeats 2000000 in
/-- With a zero monthly rate, one iteration keeps all interest fields zero. -/
theorem simStep_interest_zero (p : SimulationParams) (r : ℚ) (s : SimState) (hr : r = 0)
    (hall : ∀ rec ∈ s.data, rec.interestPaid = 0) (ht : s.totalInterest = 0) :
    (∀ rec ∈ ((simStep p r s).1).data, rec.interestPaid = 0) ∧
    ((simStep p r s).1).totalInterest = 0 := by
  subst hr
  by_cases hg : s.balance > p.initialBalance * 5 ∧ s.balance > 1000000
  · simp only [simStep, if_pos hg]
    exact ⟨hall, ht⟩
  · simp only [simStep, if_neg hg]
    split_ifs
    all_goals dsimp only
    all_goals refine ⟨?_, by simp [ht]⟩
    all_goals intro rec hrec
    all_goals rcases List.mem_append.mp hrec with h | h
    all_goals first
      | exact hall rec h
      | (simp only [List.mem_singleton] at h; subst h; simp)

/-- With a zero monthly rate, the loop keeps all interest fields zero. -/
theorem simLoop_interest_zero (p : SimulationParams) (r : ℚ) (hr : r = 0) :
    ∀ (fuel : ℕ) (s : SimState),
      (∀ rec ∈ s.data, rec.interestPaid = 0) → s.totalInterest = 0 →
      ((∀ rec ∈ (simLoop p r fuel s).data, rec.interestPaid = 0) ∧
       (simLoop p r fuel s).totalInterest = 0) := by
  intro fuel
  induction fuel with
  | zero => intro s h1 h2; exact ⟨h1, h2⟩
  | succ fuel ih =>
    intro s h1 h2
    by_cases h0 : 0 < s.balance
    · rcases hE : simStep p r s with ⟨s', c⟩
      have hstep := simStep_interest_zero p r s hr h1 h2
      rw [hE] at hstep
      simp only at hstep
      cases c with
      | false => rw [simLoop_succ_stop p r fuel s s' h0 hE]; exact hstep
      | true => rw [simLoop_succ_cont p r fuel s s' h0 hE]; exact ih s' hstep.1 hstep.2
    · rw [simLoop_succ_nonpos p r fuel s h0]
      exact ⟨h1, h2⟩

/-- C4 (amended): every parameter combination produces a total numeric result
(the embedding is a total function), and a *zero* annual rate yields zero
interest throughout: every trajectory row has `interestPaid = 0` and the
aggregate `totalInterest` is 0.  (A *negative* rate does not yield zero
interest — it yields negative interest, see the counterexample.) -/
theorem calculateSimulation_zero_rate (p : SimulationParams)
    (hr : p.annualInterestRate = 0) :
    (∀ rec ∈ (calculateSimulation p).data, rec.interestPaid = 0) ∧
    (calculateSimulation p).totalInterest = 0 := by
  have hr0 : p.annualInterestRate / 100 / 12 = 0 := by rw [hr]; norm_num
  have h := simLoop_interest_zero p (p.annualInterestRate / 100 / 12) hr0 MAX_MONTHS
    { balance := p.initialBalance
      totalInterest := 0
      totalPaid := 0
      cumulativePrincipal := 0
      data := [{ month := 0
                 balance := p.initialBalance
                 principalPaid := 0
                 interestPaid := 0
                 totalPaid := 0
                 cumulativeInterest := 0
                 cumulativePrincipal := 0
                 remainingInterest :=
                   calculateProjectedInterest p.initialBalance
                     p.monthlyRepayment p.annualInterestRate }]
      month := 0
      isInfinite := false } (by simp) rfl
  simp only [calculateSimulation]
  exact h

/-- Witness for the amended C4 theorem at concrete parameters. -/
theorem calculateSimulation_zero_rate_witness :
    (⟨100, 0, 100, 0⟩ : SimulationParams).annualInterestRate = 0 ∧
    (calculateSimulation ⟨100, 0, 100, 0⟩).totalInterest = 0 :=
  ⟨rfl, (calculateSimulation_zero_rate ⟨100, 0, 100, 0⟩ rfl).2⟩

set_option maxRecDepth 8000 in
/-- Counterexample to C4 as stated: a negative annual rate (−12 %) does not
degrade to zero interest — month 1 records `interestPaid = −10`. -/
theorem calculateSimulation_zero_rate_counterexample :
    ((calculateSimulation ⟨1000, 0, 2000, -12⟩).data[1]?).map MonthData.interestPaid =
      some (-10) ∧ ((-10 : ℚ) ≠ 0) :=
  of_decide_eq_true (by with_unfolding_all rfl)

set_option maxHeartbeats 2000000 in
/-- One iteration preserves the row-indexing invariant (`row i` has
`month = i`), and — when the loop continues — the invariant that the
trajectory has `month + 1` rows. -/
theorem simStep_month_index (p : SimulationParams) (r : ℚ) (s : SimState)
    (hlen : s.data.length = s.month + 1)
    (hidx : ∀ (i : ℕ) (rec : MonthData), s.data[i]? = some rec → rec.month = i) :
    (∀ (i : ℕ) (rec : MonthData),
      ((simStep p r s).1).data[i]? = some rec → rec.month = i) ∧
    ((simStep p r s).2 = true →
      ((simStep p r s).1).data.length = ((simStep p r s).1).month + 1) := by
  by_cases hg : s.balance > p.initialBalance * 5 ∧ s.balance > 1000000
  · simp only [simStep, if_pos hg]
    exact ⟨hidx, fun h => by cases h⟩
  · simp only [simStep, if_neg hg]
    split_ifs
    all_goals dsimp only
    all_goals refine ⟨?_, fun _ => by simp [hlen]⟩
    all_goals intro i rec h
    all_goals rcases Nat.lt_or_ge i s.data.length with hi | hi
    all_goals first
      | (rw [List.getElem?_append_left hi] at h; exact hidx i rec h)
      | (rw [List.getElem?_append_right hi] at h
         have h1 : i - s.data.length < 1 := by
           have h2 := (List.getElem?_eq_some.mp h).1
           simpa using h2
         have h3 : i - s.data.length = 0 := by omega
         rw [h3] at h
         simp only [List.getElem?_cons_zero, Option.some.injEq] at h
         rw [← h]
         dsimp only
         omega)

/-- The loop preserves the row-indexing invariant. -/
theorem simLoop_month_index (p : SimulationParams) (r : ℚ) :
    ∀ (fuel : ℕ) (s : SimState),
      s.data.length = s.month + 1 →
      (∀ (i : ℕ) (rec : MonthData), s.data[i]? = some rec → rec.month = i) →
      ∀ (i : ℕ) (rec : MonthData),
        (simLoop p r fuel s).data[i]? = some rec → rec.month = i := by
  intro fuel
  induction fuel with
  | zero => intro s _ hidx; exact hidx
  | succ fuel ih =>
    intro s hlen hidx
    by_cases h0 : 0 < s.balance
    · rcases hE : simStep p r s with ⟨s', c⟩
      have hstep := simStep_month_index p r s hlen hidx
      rw [hE] at hstep
      simp only at hstep
      cases c with
      | false => rw [simLoop_succ_stop p r fuel s s' h0 hE]; exact hstep.1
      | true =>
        rw [simLoop_succ_cont p r fuel s s' h0 hE]
        exact ih s' (hstep.2 rfl) hstep.1
    · rw [simLoop_succ_nonpos p r fuel s h0]
      exact hidx

/-- C8: every trajectory row of `calculateSimulation` carries its own index as
its month (`trajectory[i].month = i`, so rows appear in increasing month order
starting at 0), and row 0 carries the initial balance. -/
theorem calculateSimulation_month_index (p : SimulationParams) (i : ℕ) (rec : MonthData)
    (h : (calculateSimulation p).data[i]? = some rec) :
    rec.month = i ∧ (i = 0 → rec.balance = p.initialBalance) := by
  simp only [calculateSimulation] at h
  constructor
  · refine simLoop_month_index p (p.annualInterestRate / 100 / 12) MAX_MONTHS
      { balance := p.initialBalance
        totalInterest := 0
        totalPaid := 0
        cumulativePrincipal := 0
        data := [{ month := 0
                   balance := p.initialBalance
                   principalPaid := 0
                   interestPaid := 0
                   totalPaid := 0
                   cumulativeInterest := 0
                   cumulativePrincipal := 0
                   remainingInterest :=
                     calculateProjectedInterest p.initialBalance
                       p.monthlyRepayment p.annualInterestRate }]
        month := 0
        isInfinite := false } (by simp) ?_ i rec h
    intro j rc hj
    have hj1 : j < 1 := by simpa using (List.getElem?_eq_some.mp hj).1
    interval_cases j
    simp only [List.getElem?_cons_zero, Option.some.injEq] at hj
    rw [← hj]
  · intro hi
    subst hi
    have h0 := simLoop_data_getElem? p (p.annualInterestRate / 100 / 12) MAX_MONTHS
      { balance := p.initialBalance
        totalInterest := 0
        totalPaid := 0
        cumulativePrincipal := 0
        data := [{ month := 0
                   balance := p.initialBalance
                   principalPaid := 0
                   interestPaid := 0
                   totalPaid := 0
                   cumulativeInterest := 0
                   cumulativePrincipal := 0
                   remainingInterest :=
                     calculateProjectedInterest p.initialBalance
                       p.monthlyRepayment p.annualInterestRate }]
        month := 0
        isInfinite := false } 0 (by simp)
    rw [h0] at h
    simp only [List.getElem?_cons_zero, Option.some.injEq] at h
    rw [← h]

/-- Witness for C8 at concrete parameters (initial balance 0: the loop does
not run and the trajectory is the single month-0 row). -/
theorem calculateSimulation_month_index_witness :
    (calculateSimulation ⟨0, 0, 0, 0⟩).data[0]? = some ⟨0, 0, 0, 0, 0, 0, 0, 0⟩ ∧
    (⟨0, 0, 0, 0, 0, 0, 0, 0⟩ : MonthData).month = 0 ∧
    (⟨0, 0, 0, 0, 0, 0, 0, 0⟩ : MonthData).balance = 0 := by
  have h : (calculateSimulation ⟨0, 0, 0, 0⟩).data[0]? = some ⟨0, 0, 0, 0, 0, 0, 0, 0⟩ :=
    of_decide_eq_true (by with_unfolding_all rfl)
  exact ⟨h, (calculateSimulation_month_index ⟨0, 0, 0, 0⟩ 0 _ h).1,
    (calculateSimulation_month_index ⟨0, 0, 0, 0⟩ 0 _ h).2 rfl⟩

set_option maxRecDepth 8000 in
/-- C6: for Scenario A (initialBalance 300000, no new charges, repayment 5000,
annual rate 18 %), the month-1 trajectory row has
`interestPaid = ⌊300000 × 18 / 100 / 12⌋ = 4500`, `principalPaid = 500` and
`balance = 299500`. -/
theorem calculateSimulation_scenarioA_month1 :
    ((calculateSimulation ⟨300000, 0, 5000, 18⟩).data[1]?).map MonthData.interestPaid =
      some 4500 ∧
    ((calculateSimulation ⟨300000, 0, 5000, 18⟩).data[1]?).map MonthData.principalPaid =
      some 500 ∧
    ((calculateSimulation ⟨300000, 0, 5000, 18⟩).data[1]?).map MonthData.balance =
      some 299500 := by
  have h1 : simStep ⟨300000, 0, 5000, 18⟩ ((18 : ℚ) / 100 / 12)
      ⟨300000, 0, 0, 0,
        [⟨0, 300000, 0, 0, 0, 0, 0, calculateProjectedInterest 300000 5000 18⟩],
        0, false⟩ =
      (⟨299500, 4500, 5000, 500,
        [⟨0, 300000, 0, 0, 0, 0, 0, calculateProjectedInterest 300000 5000 18⟩,
         ⟨1, 299500, 500, 4500, 5000, 4500, 500,
           calculateProjectedInterest 299500 5000 18⟩],
        1, false⟩, true) := by
    with_unfolding_all rfl
  have e1 : simLoop ⟨300000, 0, 5000, 18⟩ ((18 : ℚ) / 100 / 12) 600
      ⟨300000, 0, 0, 0,
        [⟨0, 300000, 0, 0, 0, 0, 0, calculateProjectedInterest 300000 5000 18⟩],
        0, false⟩ =
      simLoop ⟨300000, 0, 5000, 18⟩ ((18 : ℚ) / 100 / 12) 599
      ⟨299500, 4500, 5000, 500,
        [⟨0, 300000, 0, 0, 0, 0, 0, calculateProjectedInterest 300000 5000 18⟩,
         ⟨1, 299500, 500, 4500, 5000, 4500, 500,
           calculateProjectedInterest 299500 5000 18⟩],
        1, false⟩ :=
    simLoop_succ_cont ⟨300000, 0, 5000, 18⟩ ((18 : ℚ) / 100 / 12) 599 _ _
      (by norm_num) h1
  have hget : (simLoop ⟨300000, 0, 5000, 18⟩ ((18 : ℚ) / 100 / 12) 599
      ⟨299500, 4500, 5000, 500,
        [⟨0, 300000, 0, 0, 0, 0, 0, calculateProjectedInterest 300000 5000 18⟩,
         ⟨1, 299500, 500, 4500, 5000, 4500, 500,
           calculateProjectedInterest 299500 5000 18⟩],
        1, false⟩).data[1]? =
      (⟨299500, 4500, 5000, 500,
        [⟨0, 300000, 0, 0, 0, 0, 0, calculateProjectedInterest 300000 5000 18⟩,
         ⟨1, 299500, 500, 4500, 5000, 4500, 500,
           calculateProjectedInterest 299500 5000 18⟩],
        1, false⟩ : SimState).data[1]? :=
    simLoop_data_getElem? ⟨300000, 0, 5000, 18⟩ ((18 : ℚ) / 100 / 12) 599 _ 1 (by simp)
  have hcs : (calculateSimulation ⟨300000, 0, 5000, 18⟩).data =
      (simLoop ⟨300000, 0, 5000, 18⟩ ((18 : ℚ) / 100 / 12) 600
        ⟨300000, 0, 0, 0,
          [⟨0, 300000, 0, 0, 0, 0, 0, calculateProjectedInterest 300000 5000 18⟩],
          0, false⟩).data := rfl
  rw [hcs, e1, hget]
  refine ⟨by simp, by simp, by simp⟩

set_option maxHeartbeats 2000000 in
/-- One iteration preserves the payment accounting identity
`totalPaid = interestPaid + principalPaid` (per row and in the aggregates). -/
theorem simStep_accounting (p : SimulationParams) (r : ℚ) (s : SimState)
    (hrec : ∀ rec ∈ s.data, rec.totalPaid = rec.interestPaid + rec.principalPaid)
    (htot : s.totalPaid = s.totalInterest + s.cumulativePrincipal)
    (hlast : s.data.getLast?.map MonthData.cumulativePrincipal =
      some s.cumulativePrincipal) :
    (∀ rec ∈ ((simStep p r s).1).data,
      rec.totalPaid = rec.interestPaid + rec.principalPaid) ∧
    ((simStep p r s).1).totalPaid =
      ((simStep p r s).1).totalInterest + ((simStep p r s).1).cumulativePrincipal ∧
    ((simStep p r s).1).data.getLast?.map MonthData.cumulativePrincipal =
      some ((simStep p r s).1).cumulativePrincipal := by
  by_cases hg : s.balance > p.initialBalance * 5 ∧ s.balance > 1000000
  · simp only [simStep, if_pos hg]
    exact ⟨hrec, htot, hlast⟩
  · simp only [simStep, if_neg hg]
    split_ifs
    all_goals dsimp only
    all_goals refine ⟨fun rec hm => ?_, by linarith,
      by simp [List.getLast?_concat]⟩
    all_goals rcases List.mem_append.mp hm with h | h
    all_goals first
      | exact hrec rec h
      | (simp only [List.mem_singleton] at h; subst h; dsimp only; ring)

/-- The loop preserves the payment accounting identity. -/
theorem simLoop_accounting (p : SimulationParams) (r : ℚ) :
    ∀ (fuel : ℕ) (s : SimState),
      (∀ rec ∈ s.data, rec.totalPaid = rec.interestPaid + rec.principalPaid) →
      s.totalPaid = s.totalInterest + s.cumulativePrincipal →
      s.data.getLast?.map MonthData.cumulativePrincipal = some s.cumulativePrincipal →
      ((∀ rec ∈ (simLoop p r fuel s).data,
         rec.totalPaid = rec.interestPaid + rec.principalPaid) ∧
       (simLoop p r fuel s).totalPaid =
         (simLoop p r fuel s).totalInterest + (simLoop p r fuel s).cumulativePrincipal ∧
       (simLoop p r fuel s).data.getLast?.map MonthData.cumulativePrincipal =
         some (simLoop p r fuel s).cumulativePrincipal) := by
  intro fuel
  induction fuel with
  | zero => intro s h1 h2 h3; exact ⟨h1, h2, h3⟩
  | succ fuel ih =>
    intro s h1 h2 h3
    by_cases h0 : 0 < s.balance
    · rcases hE : simStep p r s with ⟨s', c⟩
      have hstep := simStep_accounting p r s h1 h2 h3
      rw [hE] at hstep
      simp only at hstep
      cases c with
      | false => rw [simLoop_succ_stop p r fuel s s' h0 hE]; exact hstep
      | true =>
        rw [simLoop_succ_cont p r fuel s s' h0 hE]
        exact ih s' hstep.1 hstep.2.1 hstep.2.2
    · rw [simLoop_succ_nonpos p r fuel s h0]
      exact ⟨h1, h2, h3⟩

/-- C10: `calculateSimulation` maintains `payment = interest + principal`:
every trajectory row satisfies `totalPaid = interestPaid + principalPaid`
(including rows with negative `principalPaid`), and the aggregate satisfies
`totalPaid = totalInterest + cumulativePrincipal` of the last row. -/
theorem calculateSimulation_accounting (p : SimulationParams) :
    (∀ rec ∈ (calculateSimulation p).data,
      rec.totalPaid = rec.interestPaid + rec.principalPaid) ∧
    ∀ last : MonthData, (calculateSimulation p).data.getLast? = some last →
      (calculateSimulation p).totalPaid =
        (calculateSimulation p).totalInterest + last.cumulativePrincipal := by
  have h := simLoop_accounting p (p.annualInterestRate / 100 / 12) MAX_MONTHS
    { balance := p.initialBalance
      totalInterest := 0
      totalPaid := 0
      cumulativePrincipal := 0
      data := [{ month := 0
                 balance := p.initialBalance
                 principalPaid := 0
                 interestPaid := 0
                 totalPaid := 0
                 cumulativeInterest := 0
                 cumulativePrincipal := 0
                 remainingInterest :=
                   calculateProjectedInterest p.initialBalance
                     p.monthlyRepayment p.annualInterestRate }]
      month := 0
      isInfinite := false } (by simp) (by norm_num) (by simp)
  simp only [calculateSimulation]
  refine ⟨h.1, ?_⟩
  intro last hlast
  have hcp := h.2.2
  rw [hlast, Option.map_some'] at hcp
  rw [Option.some.inj hcp]
  exact h.2.1

/-- Witness for C10 at concrete parameters (initial balance 0). -/
theorem calculateSimulation_accounting_witness :
    (calculateSimulation ⟨0, 0, 0, 0⟩).data.getLast? = some ⟨0, 0, 0, 0, 0, 0, 0, 0⟩ ∧
    (calculateSimulation ⟨0, 0, 0, 0⟩).totalPaid =
      (calculateSimulation ⟨0, 0, 0, 0⟩).totalInterest +
        (⟨0, 0, 0, 0, 0, 0, 0, 0⟩ : MonthData).cumulativePrincipal := by
  have h : (calculateSimulation ⟨0, 0, 0, 0⟩).data.getLast? =
      some ⟨0, 0, 0, 0, 0, 0, 0, 0⟩ := of_decide_eq_true (by with_unfolding_all rfl)
  exact ⟨h, (calculateSimulation_accounting ⟨0, 0, 0, 0⟩).2 _ h⟩
